import Mathlib

/-!
Verification of the FAIR-calculator risk quantification system. The
presentation layer (two variants of the RiskCalculator component, in
src/frontend/components/RiskCalculator.tsx and src/unnamed/part_000) is
embedded from source; the backend engine (vulnerability lookup, loss model,
annualization, SVCC scorer, cliff generator, orchestrator) is not among the
provided sources and is modelled from the specification where a claim
requires it. All monetary and probability values are rationals.
-/

/-- The VISUAL_MATRIX constant of src/frontend/components/RiskCalculator.tsx
(lines 41-47): keyed by TCap (row) then RS (column). Entries outside the
5x5 table are 0 (the source object has no such keys). -/
def VISUAL_MATRIX (tcap rs : Nat) : ℚ :=
  match tcap, rs with
  | 5, 1 => 0.99 | 5, 2 => 0.95 | 5, 3 => 0.85 | 5, 4 => 0.60 | 5, 5 => 0.25
  | 4, 1 => 0.95 | 4, 2 => 0.80 | 4, 3 => 0.50 | 4, 4 => 0.25 | 4, 5 => 0.05
  | 3, 1 => 0.80 | 3, 2 => 0.50 | 3, 3 => 0.20 | 3, 4 => 0.05 | 3, 5 => 0.01
  | 2, 1 => 0.50 | 2, 2 => 0.20 | 2, 3 => 0.05 | 2, 4 => 0.01 | 2, 5 => 0.00
  | 1, 1 => 0.20 | 1, 2 => 0.05 | 1, 3 => 0.01 | 1, 4 => 0.00 | 1, 5 => 0.00
  | _, _ => 0

/-- The VISUAL_MATRIX constant of the second component variant,
src/unnamed/part_000 (lines 43-49), embedded independently so the two
renderings can be compared entry for entry. -/
def VISUAL_MATRIX_v2 (tcap rs : Nat) : ℚ :=
  match tcap, rs with
  | 5, 1 => 0.99 | 5, 2 => 0.95 | 5, 3 => 0.85 | 5, 4 => 0.60 | 5, 5 => 0.25
  | 4, 1 => 0.95 | 4, 2 => 0.80 | 4, 3 => 0.50 | 4, 4 => 0.25 | 4, 5 => 0.05
  | 3, 1 => 0.80 | 3, 2 => 0.50 | 3, 3 => 0.20 | 3, 4 => 0.05 | 3, 5 => 0.01
  | 2, 1 => 0.50 | 2, 2 => 0.20 | 2, 3 => 0.05 | 2, 4 => 0.01 | 2, 5 => 0.00
  | 1, 1 => 0.20 | 1, 2 => 0.05 | 1, 3 => 0.01 | 1, 4 => 0.00 | 1, 5 => 0.00
  | _, _ => 0

/-- The 5x5 vulnerability table exactly as tabulated in the specification
(section 4.1), row = capability, column = resistance. -/
def specTable (capability resistance : Nat) : ℚ :=
  match capability, resistance with
  | 5, 1 => 0.99 | 5, 2 => 0.95 | 5, 3 => 0.85 | 5, 4 => 0.60 | 5, 5 => 0.25
  | 4, 1 => 0.95 | 4, 2 => 0.80 | 4, 3 => 0.50 | 4, 4 => 0.25 | 4, 5 => 0.05
  | 3, 1 => 0.80 | 3, 2 => 0.50 | 3, 3 => 0.20 | 3, 4 => 0.05 | 3, 5 => 0.01
  | 2, 1 => 0.50 | 2, 2 => 0.20 | 2, 3 => 0.05 | 2, 4 => 0.01 | 2, 5 => 0.00
  | 1, 1 => 0.20 | 1, 2 => 0.05 | 1, 3 => 0.01 | 1, 4 => 0.00 | 1, 5 => 0.00
  | _, _ => 0

/-- The same table scaled by 100 into naturals (0.99 becomes 99, and so on).
This is a proof-internal view that lets finite table facts be decided over
Nat; the bridge lemmas below relate it to each rational table. -/
def tableCenti (tcap rs : Nat) : Nat :=
  match tcap, rs with
  | 5, 1 => 99 | 5, 2 => 95 | 5, 3 => 85 | 5, 4 => 60 | 5, 5 => 25
  | 4, 1 => 95 | 4, 2 => 80 | 4, 3 => 50 | 4, 4 => 25 | 4, 5 => 5
  | 3, 1 => 80 | 3, 2 => 50 | 3, 3 => 20 | 3, 4 => 5 | 3, 5 => 1
  | 2, 1 => 50 | 2, 2 => 20 | 2, 3 => 5 | 2, 4 => 1 | 2, 5 => 0
  | 1, 1 => 20 | 1, 2 => 5 | 1, 3 => 1 | 1, 4 => 0 | 1, 5 => 0
  | _, _ => 0

/-- Modelled from the spec: VulnerabilityModel.lookup(capability, resistance)
(section 4.1). The backend engine is not among the provided sources; the spec
states that lookup consults the fixed table by exact index, never
interpolating. -/
def VulnerabilityModel.lookup (capability resistance : Nat) : ℚ :=
  specTable capability resistance

/-- The RiskParameters input record (spec section 3; the request body
assembled by calculateRisk in both component variants). -/
structure RiskParameters where
  tcap : Int
  rs : Int
  asset_value : ℚ
  tef : ℚ
  severity : Int
  criticality : Int
  countermeasure : Int
deriving DecidableEq

/-- One point of the capability-sensitivity curve (the cliff_data entry type
of the CalculationResults interface, RiskCalculator.tsx lines 25-37 and
part_000 lines 27-39). -/
structure CliffPoint where
  tcap : Nat
  probability : ℚ
  label : String
deriving DecidableEq

/-- The three ordered SVCC bands (the color strings Green, Yellow, Red
consumed by getSvccColor in both component variants). -/
inductive Tier where
  | Green
  | Yellow
  | Red
deriving DecidableEq

/-- The svcc field of CalculationResults: a composite score and its tier. -/
structure SVCCResult where
  score : ℚ
  color : Tier
deriving DecidableEq

/-- The CalculationResults record (RiskCalculator.tsx lines 25-37 and
part_000 lines 27-39). severity, criticality and countermeasure are always
submitted by both forms, so the svcc field is modelled as always present. -/
structure CalculationResult where
  vulnerability : ℚ
  lef : ℚ
  primary_loss : ℚ
  secondary_loss : ℚ
  single_loss_expectancy : ℚ
  ale : ℚ
  cliff_data : List CliffPoint
  svcc : SVCCResult
deriving DecidableEq

/-- Modelled from the spec: the input-domain invariant of section 3, which
the orchestrator checks before any computation (sections 4.6 and 7).
Finiteness of asset_value and tef is automatic in the rational model. -/
def ValidParams (p : RiskParameters) : Prop :=
  1 ≤ p.tcap ∧ p.tcap ≤ 5 ∧ 1 ≤ p.rs ∧ p.rs ≤ 5 ∧
  0 ≤ p.asset_value ∧ 0 ≤ p.tef ∧
  1 ≤ p.severity ∧ p.severity ≤ 10 ∧
  1 ≤ p.criticality ∧ p.criticality ≤ 10 ∧
  1 ≤ p.countermeasure ∧ p.countermeasure ≤ 10

instance (p : RiskParameters) : Decidable (ValidParams p) := by
  unfold ValidParams
  infer_instance

/-- Modelled from the spec: LossModel.compute(asset_value, vulnerability)
(section 4.2): primary loss is asset_value times vulnerability, secondary
loss is a configurable fraction of the primary loss. -/
def LossModel.compute (secondaryFraction asset_value vuln : ℚ) : ℚ × ℚ :=
  (asset_value * vuln, secondaryFraction * (asset_value * vuln))

/-- Modelled from the spec: AnnualizationEngine.compute (section 4.3),
returning (sle, lef, ale). -/
def AnnualizationEngine.compute (tef vuln primary_loss secondary_loss : ℚ) :
    ℚ × ℚ × ℚ :=
  (primary_loss + secondary_loss, tef * vuln,
    (primary_loss + secondary_loss) * (tef * vuln))

/-- Clamping of the raw SVCC score to the display interval [0, 100]
(spec sections 4.4 and 7). -/
def clampScore (x : ℚ) : ℚ := min 100 (max 0 x)

/-- Modelled from the spec: tier classification of the clamped SVCC score
into the three ordered bands via the two documented thresholds of the spec
(section 4.4: score below 34 is Green, below 67 is Yellow, else Red). -/
def classifyTier (score : ℚ) : Tier :=
  if score < 34 then Tier.Green else if score < 67 then Tier.Yellow else Tier.Red

/-- Modelled from the spec: SVCCScorer.compute (section 4.4); the raw
formula also appears verbatim in the details tab of part_000 (lines
558-579): ((S + V*10 + C) / 3) * (10 / CM), then clamped to [0, 100]. -/
def SVCCScorer.compute (severity criticality countermeasure : Int) (vuln : ℚ) :
    SVCCResult :=
  let raw := (((severity : ℚ) + vuln * 10 + (criticality : ℚ)) / 3) *
    (10 / (countermeasure : ℚ))
  { score := clampScore raw, color := classifyTier (clampScore raw) }

/-- Capability tier names used as cliff point labels (spec section 4.5
suggests the capability tier name; tiers per the glossary). -/
def capLabel (c : Nat) : String :=
  match c with
  | 1 => "Low"
  | 2 => "Moderate"
  | 3 => "Skilled"
  | 4 => "Advanced"
  | 5 => "Nation-State"
  | _ => ""

/-- Modelled from the spec: CliffCurveGenerator.generate(resistance)
(section 4.5): the five points (capability, lookup(capability, resistance),
label) for capability 1 through 5 in order. -/
def CliffCurveGenerator.generate (resistance : Nat) : List CliffPoint :=
  [1, 2, 3, 4, 5].map fun c =>
    { tcap := c, probability := VulnerabilityModel.lookup c resistance,
      label := capLabel c }

/-- Modelled from the spec: CalculationOrchestrator.evaluate (section 4.6):
validate the request, then invoke the components 4.1 through 4.5 in order and
assemble the result bundle; any domain violation yields a ValidationError
before any computation. secondaryFraction is the configurable loss split of
section 4.2. -/
def CalculationOrchestrator.evaluate (secondaryFraction : ℚ)
    (p : RiskParameters) : Except String CalculationResult :=
  if ValidParams p then
    let vuln := VulnerabilityModel.lookup p.tcap.toNat p.rs.toNat
    let losses := LossModel.compute secondaryFraction p.asset_value vuln
    let annual := AnnualizationEngine.compute p.tef vuln losses.1 losses.2
    Except.ok
      { vulnerability := vuln
        lef := annual.2.1
        primary_loss := losses.1
        secondary_loss := losses.2
        single_loss_expectancy := annual.1
        ale := annual.2.2
        cliff_data := CliffCurveGenerator.generate p.rs.toNat
        svcc := SVCCScorer.compute p.severity p.criticality p.countermeasure vuln }
  else
    Except.error "ValidationError"

/-- Modelled from the spec: a slider input control configured with min, max
and step (the Slider component of components/ui/slider is not among the
provided sources) emits only values between its configured min and max. -/
def sliderClamp (lo hi v : Int) : Int := max lo (min hi v)

/-- The countermeasure slider of src/frontend/components/RiskCalculator.tsx
(lines 234-241): min 1, max 5, step 1. -/
def countermeasureFormA (raw : Int) : Int := sliderClamp 1 5 raw

/-- The countermeasure slider of src/unnamed/part_000 (lines 255-262):
min 1, max 10, step 1. -/
def countermeasureFormB (raw : Int) : Int := sliderClamp 1 10 raw

/-- The outcome of the fetch in calculateRisk: whether the response is ok,
and the parsed results body when parsing succeeds. -/
structure FetchResponse where
  ok : Bool
  body : Option CalculationResult

/-- The component state touched by calculateRisk: the results, error and
loading useState hooks. -/
structure UIState where
  results : Option CalculationResult
  error : Option String
  loading : Bool
deriving DecidableEq

/-- The error message set by the catch branch of calculateRisk in both
component variants. -/
def connectionFailureMessage : String :=
  "Could not connect to backend server. Is it running on port 5001?"

/-- calculateRisk from src/frontend/components/RiskCalculator.tsx (lines
70-98) and src/unnamed/part_000 (lines 72-100), identical in both: set
loading, clear the error, fetch; on a non-ok response throw (caught below)
without touching the body; on an ok response parse the body and store the
results; the catch branch stores the connection-failure message; finally
clear loading. The returned Bool records whether res.json() was invoked. -/
def calculateRisk (res : FetchResponse) (st : UIState) : UIState × Bool :=
  let started : UIState := { st with loading := true, error := none }
  if res.ok then
    match res.body with
    | some data =>
      ({ started with results := some data, loading := false }, true)
    | none =>
      ({ started with
          error := some connectionFailureMessage
          loading := false }, true)
  else
    ({ started with
        error := some connectionFailureMessage
        loading := false }, false)

/-- getRiskPercentage from src/frontend/components/RiskCalculator.tsx (lines
101-106) and src/unnamed/part_000 (lines 112-117), identical in both: 0 when
no results are present, otherwise (ale / riskAppetite) * 100 clamped into
[0, 100]. -/
def getRiskPercentage (results : Option CalculationResult) (riskAppetite : ℚ) : ℚ :=
  match results with
  | none => 0
  | some r => min 100 (max 0 (r.ale / riskAppetite * 100))

/-- The end-to-end example parameters of spec section 8. -/
def exampleParams : RiskParameters :=
  { tcap := 3, rs := 3, asset_value := 100000, tef := 1,
    severity := 5, criticality := 5, countermeasure := 3 }

/-- The result the orchestrator computes for the spec section 8 example
parameters with secondary fraction one half. -/
def exampleResult : CalculationResult :=
  { vulnerability := 0.20
    lef := 0.20
    primary_loss := 20000
    secondary_loss := 10000
    single_loss_expectancy := 30000
    ale := 6000
    cliff_data :=
      [ { tcap := 1, probability := 0.01, label := "Low" },
        { tcap := 2, probability := 0.05, label := "Moderate" },
        { tcap := 3, probability := 0.20, label := "Skilled" },
        { tcap := 4, probability := 0.50, label := "Advanced" },
        { tcap := 5, probability := 0.85, label := "Nation-State" } ]
    svcc := { score := 40 / 3, color := Tier.Green } }

/-- The invalid-input example of spec section 8: capability 6 is out of
range. -/
def invalidParams : RiskParameters :=
  { exampleParams with tcap := 6 }

/-! ## Helper lemmas -/

/-- The two VISUAL_MATRIX constants are the same function (their source
objects are textually identical). -/
theorem visualMatrixFunEqV2 : VISUAL_MATRIX = VISUAL_MATRIX_v2 := by
  with_unfolding_all rfl

/-- The frontend VISUAL_MATRIX is the spec table as a function. -/
theorem visualMatrixFunEqSpec : VISUAL_MATRIX = specTable := by
  with_unfolding_all rfl

set_option maxHeartbeats 2000000 in
/-- Bridge: each VISUAL_MATRIX entry is its centi-scaled Nat value over 100. -/
theorem visualMatrixEqCenti (c r : Nat) :
    VISUAL_MATRIX c r = (tableCenti c r : ℚ) / 100 := by
  rcases c with _|_|_|_|_|_|c <;> rcases r with _|_|_|_|_|_|r <;>
    with_unfolding_all rfl

/-- Monotonicity of the centi-scaled table in capability, decided over Nat. -/
theorem tableCentiMonoCap :
    ∀ r < 6, ∀ c2 < 6, ∀ c1 ≤ c2, tableCenti c1 r ≤ tableCenti c2 r := by
  decide

/-- Antitonicity of the centi-scaled table in resistance, decided over Nat.
The lower bound on r1 matters: column 0 is outside the table. -/
theorem tableCentiAntitoneRes :
    ∀ c < 6, ∀ r2 < 6, ∀ r1 ≤ r2, 1 ≤ r1 → tableCenti c r2 ≤ tableCenti c r1 := by
  decide

/-! ## Claim theorems -/

/-- C1: for all 25 pairs (capability, resistance) in 1..5, the vulnerability
lookup returns exactly the constant tabulated in the spec's 5x5 table, and so
does the source VISUAL_MATRIX; in particular lookup(3,3) = 0.20,
lookup(1,5) = 0.00 and lookup(5,1) = 0.99. -/
theorem lookup_matches_spec_table (c r : Nat)
    (hc : 1 ≤ c ∧ c ≤ 5) (hr : 1 ≤ r ∧ r ≤ 5) :
    VulnerabilityModel.lookup c r = specTable c r ∧
    VISUAL_MATRIX c r = specTable c r ∧
    VulnerabilityModel.lookup 3 3 = 0.20 ∧
    VulnerabilityModel.lookup 1 5 = 0.00 ∧
    VulnerabilityModel.lookup 5 1 = 0.99 := by
  refine ⟨rfl, congrFun (congrFun visualMatrixFunEqSpec c) r,
    by with_unfolding_all rfl, by with_unfolding_all rfl,
    by with_unfolding_all rfl⟩

theorem lookup_matches_spec_table_witness :
    ((1 ≤ 3 ∧ 3 ≤ 5) ∧ (1 ≤ 5 ∧ 5 ≤ 5)) ∧
    (VulnerabilityModel.lookup 3 5 = specTable 3 5 ∧
     VISUAL_MATRIX 3 5 = specTable 3 5 ∧
     VulnerabilityModel.lookup 3 3 = 0.20 ∧
     VulnerabilityModel.lookup 1 5 = 0.00 ∧
     VulnerabilityModel.lookup 5 1 = 0.99) :=
  ⟨by decide, lookup_matches_spec_table 3 5 (by decide) (by decide)⟩

/-- C2: for every fixed resistance in 1..5 the table entry is non-decreasing
as capability increases, and for every fixed capability in 1..5 it is
non-increasing as resistance increases. -/
theorem vulnerability_table_monotone (c c1 c2 r r1 r2 : Nat)
    (hc : 1 ≤ c ∧ c ≤ 5) (hr : 1 ≤ r ∧ r ≤ 5)
    (hc12 : 1 ≤ c1 ∧ c1 ≤ c2 ∧ c2 ≤ 5) (hr12 : 1 ≤ r1 ∧ r1 ≤ r2 ∧ r2 ≤ 5) :
    VISUAL_MATRIX c1 r ≤ VISUAL_MATRIX c2 r ∧
    VISUAL_MATRIX c r2 ≤ VISUAL_MATRIX c r1 := by
  constructor
  · rw [visualMatrixEqCenti c1 r, visualMatrixEqCenti c2 r]
    gcongr
    exact_mod_cast tableCentiMonoCap r (by omega) c2 (by omega) c1 hc12.2.1
  · rw [visualMatrixEqCenti c r1, visualMatrixEqCenti c r2]
    gcongr
    exact_mod_cast tableCentiAntitoneRes c (by omega) r2 (by omega) r1
      hr12.2.1 hr12.1

theorem vulnerability_table_monotone_witness :
    ((1 ≤ 3 ∧ 3 ≤ 5) ∧ (1 ≤ 3 ∧ 3 ≤ 5) ∧
     (1 ≤ 2 ∧ 2 ≤ 4 ∧ 4 ≤ 5) ∧ (1 ≤ 1 ∧ 1 ≤ 5 ∧ 5 ≤ 5)) ∧
    (VISUAL_MATRIX 2 3 ≤ VISUAL_MATRIX 4 3 ∧
     VISUAL_MATRIX 3 5 ≤ VISUAL_MATRIX 3 1) :=
  ⟨by decide,
   vulnerability_table_monotone 3 2 4 3 1 5 (by decide) (by decide)
     (by decide) (by decide)⟩

/-- C7: every human-facing rendering of the table agrees with the engine's
lookup: the two VISUAL_MATRIX constants are equal entry for entry to each
other, to the spec table, and to the modelled lookup. -/
theorem visual_matrix_renderings_agree (c r : Nat)
    (hc : 1 ≤ c ∧ c ≤ 5) (hr : 1 ≤ r ∧ r ≤ 5) :
    VISUAL_MATRIX c r = VISUAL_MATRIX_v2 c r ∧
    VISUAL_MATRIX c r = specTable c r ∧
    VISUAL_MATRIX_v2 c r = specTable c r ∧
    VISUAL_MATRIX c r = VulnerabilityModel.lookup c r := by
  have h1 := congrFun (congrFun visualMatrixFunEqV2 c) r
  have h2 := congrFun (congrFun visualMatrixFunEqSpec c) r
  exact ⟨h1, h2, h1 ▸ h2, h2⟩

theorem visual_matrix_renderings_agree_witness :
    ((1 ≤ 4 ∧ 4 ≤ 5) ∧ (1 ≤ 2 ∧ 2 ≤ 5)) ∧
    (VISUAL_MATRIX 4 2 = VISUAL_MATRIX_v2 4 2 ∧
     VISUAL_MATRIX 4 2 = specTable 4 2 ∧
     VISUAL_MATRIX_v2 4 2 = specTable 4 2 ∧
     VISUAL_MATRIX 4 2 = VulnerabilityModel.lookup 4 2) :=
  ⟨by decide, visual_matrix_renderings_agree 4 2 (by decide) (by decide)⟩

/-- C3: for every valid input accepted by the orchestrator, the
annualization outputs satisfy exactly sle = primary + secondary,
lef = tef * vulnerability and ale = sle * lef; consequently tef = 0 or
vulnerability = 0 forces ale = 0. -/
theorem annualization_identities (f : ℚ) (p : RiskParameters)
    (res : CalculationResult)
    (h : CalculationOrchestrator.evaluate f p = Except.ok res) :
    res.single_loss_expectancy = res.primary_loss + res.secondary_loss ∧
    res.lef = p.tef * res.vulnerability ∧
    res.ale = res.single_loss_expectancy * res.lef ∧
    ((p.tef = 0 ∨ res.vulnerability = 0) → res.ale = 0) := by
  simp only [CalculationOrchestrator.evaluate] at h
  split at h
  · simp only [Except.ok.injEq] at h
    subst h
    refine ⟨rfl, rfl, rfl, ?_⟩
    rintro (h0 | h0)
    · simp [AnnualizationEngine.compute, LossModel.compute, h0]
    · simp only at h0
      simp [AnnualizationEngine.compute, LossModel.compute, h0]
  · exact absurd h (by simp)

theorem annualization_identities_witness :
    CalculationOrchestrator.evaluate (1/2) exampleParams =
      Except.ok exampleResult ∧
    (exampleResult.single_loss_expectancy =
        exampleResult.primary_loss + exampleResult.secondary_loss ∧
      exampleResult.lef = exampleParams.tef * exampleResult.vulnerability ∧
      exampleResult.ale =
        exampleResult.single_loss_expectancy * exampleResult.lef ∧
      ((exampleParams.tef = 0 ∨ exampleResult.vulnerability = 0) →
        exampleResult.ale = 0)) :=
  ⟨by with_unfolding_all rfl,
   annualization_identities (1/2) exampleParams exampleResult
     (by with_unfolding_all rfl)⟩

/-- C6: for every successful request, cliff_data has exactly 5 entries whose
tcap values are 1, 2, 3, 4, 5 in that order, and every entry's probability
is the vulnerability table entry at (tcap, request.rs). -/
theorem cliff_data_complete (f : ℚ) (p : RiskParameters)
    (res : CalculationResult)
    (h : CalculationOrchestrator.evaluate f p = Except.ok res) :
    res.cliff_data.length = 5 ∧
    res.cliff_data.map CliffPoint.tcap = [1, 2, 3, 4, 5] ∧
    ∀ pt ∈ res.cliff_data,
      pt.probability = VulnerabilityModel.lookup pt.tcap p.rs.toNat := by
  simp only [CalculationOrchestrator.evaluate] at h
  split at h
  · simp only [Except.ok.injEq] at h
    subst h
    refine ⟨rfl, rfl, ?_⟩
    intro pt hpt
    simp only [CliffCurveGenerator.generate, List.map, List.mem_cons,
      List.not_mem_nil, or_false] at hpt
    rcases hpt with h1 | h1 | h1 | h1 | h1 <;> subst h1 <;> rfl
  · exact absurd h (by simp)

theorem cliff_data_complete_witness :
    CalculationOrchestrator.evaluate (1/2) exampleParams =
      Except.ok exampleResult ∧
    (exampleResult.cliff_data.length = 5 ∧
      exampleResult.cliff_data.map CliffPoint.tcap = [1, 2, 3, 4, 5] ∧
      ∀ pt ∈ exampleResult.cliff_data,
        pt.probability =
          VulnerabilityModel.lookup pt.tcap exampleParams.rs.toNat) :=
  ⟨by with_unfolding_all rfl,
   cliff_data_complete (1/2) exampleParams exampleResult
     (by with_unfolding_all rfl)⟩

/-- C5: the orchestrator rejects with a ValidationError, and returns no
partially computed result, whenever any input field is outside its declared
domain or countermeasure is 0. -/
theorem evaluate_rejects_out_of_domain (f : ℚ) (p : RiskParameters)
    (h : p.tcap < 1 ∨ 5 < p.tcap ∨ p.rs < 1 ∨ 5 < p.rs ∨
         p.severity < 1 ∨ 10 < p.severity ∨
         p.criticality < 1 ∨ 10 < p.criticality ∨
         p.asset_value < 0 ∨ p.tef < 0 ∨ p.countermeasure = 0) :
    CalculationOrchestrator.evaluate f p = Except.error "ValidationError" := by
  have hv : ¬ ValidParams p := by
    intro hvp
    obtain ⟨h1, h2, h3, h4, h5, h6, h7, h8, h9, h10, h11, h12⟩ := hvp
    rcases h with hx | hx | hx | hx | hx | hx | hx | hx | hx | hx | hx
    all_goals first | omega | linarith
  simp [CalculationOrchestrator.evaluate, hv]

theorem evaluate_rejects_out_of_domain_witness :
    (invalidParams.tcap < 1 ∨ 5 < invalidParams.tcap ∨ invalidParams.rs < 1 ∨
     5 < invalidParams.rs ∨ invalidParams.severity < 1 ∨
     10 < invalidParams.severity ∨ invalidParams.criticality < 1 ∨
     10 < invalidParams.criticality ∨ invalidParams.asset_value < 0 ∨
     invalidParams.tef < 0 ∨ invalidParams.countermeasure = 0) ∧
    CalculationOrchestrator.evaluate (1/2) invalidParams =
      Except.error "ValidationError" :=
  ⟨by right; left; decide,
   evaluate_rejects_out_of_domain (1/2) invalidParams (by right; left; decide)⟩

/-- Helper: the classifier yields Green exactly below the lower threshold. -/
theorem classifyTier_green_iff (s : ℚ) : classifyTier s = Tier.Green ↔ s < 34 := by
  unfold classifyTier
  split_ifs with h1 h2
  · simp [h1]
  · simp [h1]
  · simp [h1]

/-- Helper: the classifier yields Yellow exactly between the thresholds. -/
theorem classifyTier_yellow_iff (s : ℚ) :
    classifyTier s = Tier.Yellow ↔ 34 ≤ s ∧ s < 67 := by
  unfold classifyTier
  split_ifs with h1 h2
  · exact iff_of_false (by simp) (fun hc => absurd hc.1 (not_le_of_lt h1))
  · exact iff_of_true rfl ⟨le_of_not_lt h1, h2⟩
  · exact iff_of_false (by simp) (fun hc => h2 hc.2)

/-- Helper: the classifier yields Red exactly from the upper threshold up. -/
theorem classifyTier_red_iff (s : ℚ) : classifyTier s = Tier.Red ↔ 67 ≤ s := by
  unfold classifyTier
  split_ifs with h1 h2
  · exact iff_of_false (by simp) (by intro hc; linarith)
  · exact iff_of_false (by simp) (by intro hc; linarith)
  · exact iff_of_true rfl (le_of_not_lt h2)

/-- C4: for countermeasure at least 1, the SVCC score is the formula
((severity + vulnerability*10 + criticality) / 3) * (10 / countermeasure)
clamped to [0, 100], and the tier label classifies the clamped score into
exactly one of the three ordered bands Green, Yellow, Red via the two fixed
monotonic thresholds. -/
theorem svcc_formula_and_tier (severity criticality countermeasure : Int)
    (vuln : ℚ) (h : 1 ≤ countermeasure) :
    (SVCCScorer.compute severity criticality countermeasure vuln).score =
      min 100 (max 0 ((((severity : ℚ) + vuln * 10 + (criticality : ℚ)) / 3) *
        (10 / (countermeasure : ℚ)))) ∧
    0 ≤ (SVCCScorer.compute severity criticality countermeasure vuln).score ∧
    (SVCCScorer.compute severity criticality countermeasure vuln).score ≤ 100 ∧
    ((SVCCScorer.compute severity criticality countermeasure vuln).color =
        Tier.Green ↔
      (SVCCScorer.compute severity criticality countermeasure vuln).score < 34) ∧
    ((SVCCScorer.compute severity criticality countermeasure vuln).color =
        Tier.Yellow ↔
      34 ≤ (SVCCScorer.compute severity criticality countermeasure vuln).score ∧
      (SVCCScorer.compute severity criticality countermeasure vuln).score < 67) ∧
    ((SVCCScorer.compute severity criticality countermeasure vuln).color =
        Tier.Red ↔
      67 ≤ (SVCCScorer.compute severity criticality countermeasure vuln).score) := by
  refine ⟨rfl, le_min (by norm_num) (le_max_left 0 _), min_le_left _ _,
    classifyTier_green_iff _, classifyTier_yellow_iff _, classifyTier_red_iff _⟩

theorem svcc_formula_and_tier_witness :
    (1 : Int) ≤ 3 ∧
    ((SVCCScorer.compute 5 5 3 0.20).score =
      min 100 (max 0 ((((5 : Int) : ℚ) + 0.20 * 10 + ((5 : Int) : ℚ)) / 3 *
        (10 / ((3 : Int) : ℚ)))) ∧
    0 ≤ (SVCCScorer.compute 5 5 3 0.20).score ∧
    (SVCCScorer.compute 5 5 3 0.20).score ≤ 100 ∧
    ((SVCCScorer.compute 5 5 3 0.20).color = Tier.Green ↔
      (SVCCScorer.compute 5 5 3 0.20).score < 34) ∧
    ((SVCCScorer.compute 5 5 3 0.20).color = Tier.Yellow ↔
      34 ≤ (SVCCScorer.compute 5 5 3 0.20).score ∧
      (SVCCScorer.compute 5 5 3 0.20).score < 67) ∧
    ((SVCCScorer.compute 5 5 3 0.20).color = Tier.Red ↔
      67 ≤ (SVCCScorer.compute 5 5 3 0.20).score)) :=
  ⟨by decide, svcc_formula_and_tier 5 5 3 0.20 (by decide)⟩

/-- C8: whatever raw value either input form's countermeasure slider is
driven with, the submitted countermeasure is an integer of at least 1 (one
form bounds it by 5, the other by 10), so it is never 0 and the SVCC divisor
10 / countermeasure never divides by zero. -/
theorem slider_countermeasure_at_least_one (raw : Int) :
    1 ≤ countermeasureFormA raw ∧ countermeasureFormA raw ≤ 5 ∧
    1 ≤ countermeasureFormB raw ∧ countermeasureFormB raw ≤ 10 ∧
    countermeasureFormA raw ≠ 0 ∧ countermeasureFormB raw ≠ 0 ∧
    ((countermeasureFormA raw : ℚ) ≠ 0) ∧
    ((countermeasureFormB raw : ℚ) ≠ 0) := by
  unfold countermeasureFormA countermeasureFormB sliderClamp
  refine ⟨?_, ?_, ?_, ?_, ?_, ?_, ?_, ?_⟩
  · omega
  · omega
  · omega
  · omega
  · omega
  · omega
  · exact Int.cast_ne_zero.mpr (by omega)
  · exact Int.cast_ne_zero.mpr (by omega)

/-- C9: when the response is not ok, calculateRisk never calls res.json(),
surfaces the human-readable connection-failure message, and leaves the
previously stored results unchanged. -/
theorem calculateRisk_non_ok_preserves_results (res : FetchResponse)
    (st : UIState) (h : res.ok = false) :
    (calculateRisk res st).2 = false ∧
    (calculateRisk res st).1.results = st.results ∧
    (calculateRisk res st).1.error = some connectionFailureMessage ∧
    (calculateRisk res st).1.loading = false := by
  simp [calculateRisk, h]

theorem calculateRisk_non_ok_preserves_results_witness :
    ({ ok := false, body := none } : FetchResponse).ok = false ∧
    ((calculateRisk { ok := false, body := none }
        { results := some exampleResult, error := none, loading := false }).2 =
        false ∧
      (calculateRisk { ok := false, body := none }
        { results := some exampleResult, error := none,
          loading := false }).1.results = some exampleResult ∧
      (calculateRisk { ok := false, body := none }
        { results := some exampleResult, error := none,
          loading := false }).1.error = some connectionFailureMessage ∧
      (calculateRisk { ok := false, body := none }
        { results := some exampleResult, error := none,
          loading := false }).1.loading = false) :=
  ⟨rfl, calculateRisk_non_ok_preserves_results _ _ rfl⟩

/-- C10: getRiskPercentage returns 0 when no results are present, otherwise
(ale / riskAppetite) * 100 clamped below by 0 and above by 100; in either
case the value lies in [0, 100]. -/
theorem getRiskPercentage_clamped (r : CalculationResult) (ra : ℚ)
    (h0 : 0 ≤ r.ale) (h1 : 0 < ra) :
    getRiskPercentage none ra = 0 ∧
    getRiskPercentage (some r) ra = min 100 (max 0 (r.ale / ra * 100)) ∧
    0 ≤ getRiskPercentage (some r) ra ∧
    getRiskPercentage (some r) ra ≤ 100 ∧
    0 ≤ getRiskPercentage none ra ∧ getRiskPercentage none ra ≤ 100 := by
  refine ⟨rfl, rfl, ?_, ?_, le_refl 0, by norm_num [getRiskPercentage]⟩
  · exact le_min (by norm_num) (le_max_left 0 _)
  · exact min_le_left _ _

theorem getRiskPercentage_clamped_witness :
    (0 ≤ exampleResult.ale ∧ 0 < (50000 : ℚ)) ∧
    (getRiskPercentage none 50000 = 0 ∧
      getRiskPercentage (some exampleResult) 50000 =
        min 100 (max 0 (exampleResult.ale / 50000 * 100)) ∧
      0 ≤ getRiskPercentage (some exampleResult) 50000 ∧
      getRiskPercentage (some exampleResult) 50000 ≤ 100 ∧
      0 ≤ getRiskPercentage none (50000 : ℚ) ∧
      getRiskPercentage none (50000 : ℚ) ≤ 100) :=
  ⟨⟨by norm_num [exampleResult], by norm_num⟩,
   getRiskPercentage_clamped exampleResult 50000
     (by norm_num [exampleResult]) (by norm_num)⟩
